import Mathlib

/-!
Verification of the booth-mapping repository's Geospatial Sampling and
Clustering Engine against its natural-language specification.

The data model and operations below are shallowly embedded from the
Python source:
* `get_column_name`, `extract_booth_info` — src/app.py / src/main.py
* `validate_booths_in_polygon`, `get_ac_pc_list` — src/utils/data_utils.py
* the per-region loop body of `process_data` — src/main.py (same in app.py)
* `process_ac_pc_clustering` — utils/clustering_utils.py, which is not
  part of the available source tree; it is modelled from the spec
  (sections 4.3–4.6) and clearly marked as such.

Coordinates are rational numbers (exact stand-ins for the floats of the
source); geometries are vertex rings; layers are lists of rows with an
attribute table and a coordinate-reference-system tag.
-/

/-- A 2-D point with rational coordinates. -/
abbrev Pt := ℚ × ℚ

/-- Squared Euclidean distance between two points. -/
def sqDist (a b : Pt) : ℚ :=
  (a.1 - b.1) ^ 2 + (a.2 - b.2) ^ 2

/-- Even–odd ray-casting point-in-polygon test, the embedding of shapely's
`Point.within(polygon)` as used by `validate_booths_in_polygon`: a point in
the interior of the ring crosses an odd number of edges on a horizontal
ray to the right. -/
def pointInPolygon (p : Pt) (poly : List Pt) : Bool :=
  let edges := poly.zip (poly.rotate 1)
  (edges.filter (fun e =>
      (decide (e.1.2 > p.2) != decide (e.2.2 > p.2)) &&
      decide (p.1 < e.1.1 + (p.2 - e.1.2) * (e.2.1 - e.1.1) / (e.2.2 - e.1.2)))).length % 2 = 1

/-- Axis-aligned bounding-box test, used only to show that the containment
test of the source is not mere bounding-box overlap. -/
def inBoundingBox (p : Pt) (poly : List Pt) : Bool :=
  match poly with
  | [] => false
  | v :: vs =>
    let xs := (v :: vs).map Prod.fst
    let ys := (v :: vs).map Prod.snd
    decide (xs.foldl min v.1 ≤ p.1) && decide (p.1 ≤ xs.foldl max v.1) &&
    decide (ys.foldl min v.2 ≤ p.2) && decide (p.2 ≤ ys.foldl max v.2)

/-- A booth row: a point geometry plus an attribute table
(field name ↦ string value), as in the booth GeoDataFrame. -/
structure Booth where
  pt : Pt
  attrs : List (String × String)
deriving DecidableEq, Repr

/-- The booth layer: rows plus a coordinate-reference-system tag
(`gdf.crs`). -/
structure BoothLayer where
  rows : List Booth
  crs : ℕ
deriving DecidableEq, Repr

/-- A polygon row of the region layer: an attribute table and a boundary
ring geometry. -/
structure PolyRow where
  attrs : List (String × String)
  geometry : List Pt
deriving DecidableEq, Repr

/-- The region-polygon layer: its column names, rows, and
coordinate-reference-system tag. -/
structure PolyLayer where
  columns : List String
  rows : List PolyRow
  crs : ℕ
deriving DecidableEq, Repr

/-- Value of a named column in a row's attribute table, already as a
string (the source compares `astype(str)` values). -/
def rowValue (attrs : List (String × String)) (col : String) : String :=
  ((attrs.find? (fun kv => kv.1 == col)).map Prod.snd).getD ""

/-- `get_column_name` from src/app.py lines 41–45 (identical in
src/main.py): the first pattern, in candidate order, that is a member of
the column set; `none` when no pattern matches. -/
def get_column_name (columns : List String) (patterns : List String) : Option String :=
  patterns.find? (fun p => decide (p ∈ columns))

/-- The fixed region-code alias list of `validate_booths_in_polygon`
(src/utils/data_utils.py line 72). -/
def codePatterns : List String :=
  ["ac_no", "pc_no", "ac", "pc", "AC_NO", "PC_NO", "AC", "PC"]

/-- `validate_booths_in_polygon` from src/utils/data_utils.py lines 63–90.
`tr` is the family of coordinate transformations underlying geopandas'
`to_crs` (from-CRS, to-CRS, point ↦ reprojected point).  Mirrors the
source line by line: `None` layers give an empty result; booths are
reprojected when the CRS tags differ; the code column is the given one or
else the first alias present; the polygon is the geometry of the first
row whose column value string-equals the code; the result is the filter
of the (possibly reprojected) booths by point-in-polygon containment. -/
def validate_booths_in_polygon (tr : ℕ → ℕ → Pt → Pt)
    (booths_gdf : Option BoothLayer) (polygon_gdf : Option PolyLayer)
    (ac_pc_code : String) (ac_pc_column : Option String) : List Booth :=
  match booths_gdf, polygon_gdf with
  | some B, some P =>
    let rows := if B.crs ≠ P.crs
      then B.rows.map (fun b => { b with pt := tr B.crs P.crs b.pt })
      else B.rows
    let col := match ac_pc_column with
      | some c => some c
      | none => get_column_name P.columns codePatterns
    match col with
    | none => []
    | some c =>
      match P.rows.filter (fun r => rowValue r.attrs c == ac_pc_code) with
      | [] => []
      | row :: _ => rows.filter (fun b => pointInPolygon b.pt row.geometry)
  | _, _ => []

/-- Resolution of one semantic field of `extract_booth_info`
(src/app.py lines 48–94): find the first alias present among the row's
field names and read its value, or report the empty string. -/
def resolveField (row : Booth) (patterns : List String) : String :=
  match get_column_name (row.attrs.map Prod.fst) patterns with
  | some c => rowValue row.attrs c
  | none => ""

/-- The record built by `extract_booth_info` (src/app.py lines 81–94). -/
structure BoothInfo where
  state : String
  district : String
  district_n : String
  pc : String
  pc_name : String
  ac : String
  ac_name : String
  booth : String
  booth_name : String
  cluster : String
  latitude : String
  longitude : String
deriving DecidableEq, Repr

/-- `extract_booth_info` from src/app.py lines 48–94 (identical in
src/main.py): each output attribute is resolved through the fixed alias
list of its semantic field, empty when no alias matches. -/
def extract_booth_info (row : Booth) (state : String)
    (ac_pc_code : String) (ac_pc_name : String) : BoothInfo :=
  { state := state
    district := resolveField row ["district", "DISTRICT", "dist", "DIST"]
    district_n := resolveField row ["district_n", "DISTRICT_N", "dist_name", "DIST_NAME"]
    pc := resolveField row ["pc", "PC", "pc_no", "PC_NO"]
    pc_name := resolveField row ["pc_name", "PC_NAME"]
    ac := resolveField row ["ac", "AC", "ac_no", "AC_NO"]
    ac_name := resolveField row ["ac_name", "AC_NAME"]
    booth := resolveField row ["booth", "booth_no", "BOOTH_NO", "BOOTH"]
    booth_name := resolveField row ["booth_name", "BOOTH_NAME", "name", "NAME"]
    cluster := rowValue row.attrs "cluster"
    latitude := rowValue row.attrs "latitude"
    longitude := rowValue row.attrs "longitude" }

/-- Modelled from the spec: Python's banker's rounding (`round`), the
rounding used by the Cluster Count Allocator (spec section 4.3; the same
formula appears at src/app.py line 148 as `round(samples_per_ac / 25)`).
Halves round to the even neighbour. -/
def pyRound (q : ℚ) : ℤ :=
  if Int.fract q < 1 / 2 then ⌊q⌋
  else if Int.fract q > 1 / 2 then ⌊q⌋ + 1
  else if Even ⌊q⌋ then ⌊q⌋ else ⌊q⌋ + 1

/-- Modelled from the spec: the Cluster Count Allocator of section 4.3,
`clusters = max(1, round(requested_samples / 25))`; its implementation
lives in utils/clustering_utils.py, which is missing from the source
tree. -/
def clustersFor (samples : ℕ) : ℕ :=
  max 1 (pyRound ((samples : ℚ) / 25)).toNat

/-- The sidebar formula of src/app.py line 148,
`clusters_per_ac = round(samples_per_ac / 25)` — note: no floor at 1. -/
def clusters_per_ac (samples : ℕ) : ℤ :=
  pyRound ((samples : ℚ) / 25)

/-- Index of the nearest centroid (first index wins ties), the assignment
step of the Spatial Clustering Engine; helper walking the tail. -/
def nearestAux (p : Pt) : List Pt → ℕ → ℕ × ℚ → ℕ
  | [], _, best => best.1
  | c :: rest, i, best =>
    if sqDist p c < best.2 then nearestAux p rest (i + 1) (i, sqDist p c)
    else nearestAux p rest (i + 1) best

/-- Modelled from the spec (section 4.4): assign a point to its nearest
of the current centroids, earliest index on ties. -/
def nearestIdx (cents : List Pt) (p : Pt) : ℕ :=
  match cents with
  | [] => 0
  | c :: rest => nearestAux p rest 1 (0, sqDist p c)

/-- Arithmetic-mean centroid of a list of points (spec section 3,
Cluster data model). -/
def centroidOf (l : List Pt) : Pt :=
  ((l.map Prod.fst).sum / l.length, (l.map Prod.snd).sum / l.length)

/-- Modelled from the spec (section 4.4): one update step — recompute
each centroid as the mean of the points assigned to it, keeping a
centroid whose group is empty. -/
def updateCentroids (pts : List Pt) (cents : List Pt) : List Pt :=
  (List.range cents.length).map (fun i =>
    let m := pts.filter (fun p => nearestIdx cents p = i)
    if m.isEmpty then cents.getD i (0, 0) else centroidOf m)

/-- Modelled from the spec (section 4.4): iterate assignment/update until
the centroids stabilise or the iteration cap runs out. -/
def kmeansIter : ℕ → List Pt → List Pt → List Pt
  | 0, _, cents => cents
  | fuel + 1, pts, cents =>
    let c' := updateCentroids pts cents
    if c' = cents then cents else kmeansIter fuel pts c'

/-- Modelled from the spec (section 4.4): deterministic seeded centroid
initialisation — rotate the input ordering by the seed and take the first
K points (at most K, fewer when there are fewer points, matching the
required reduction of K). -/
def initCentroids (seed : ℕ) (pts : List Pt) (k : ℕ) : List Pt :=
  (pts.rotate (seed % pts.length)).take k

/-- Cluster assignments plus final centroids, the output of the Spatial
Clustering Engine (spec section 4.4). -/
structure KMeansResult where
  labels : List ℕ
  centroids : List Pt
deriving DecidableEq, Repr

/-- Modelled from the spec: the Spatial Clustering Engine of section 4.4
(utils/clustering_utils.py is missing from the source tree) — seeded
deterministic initialisation, iterative assign/update with a cap of 300
iterations, and a cluster id for every point. -/
def kmeans (pts : List Pt) (k seed : ℕ) : KMeansResult :=
  let cents := kmeansIter 300 pts (initCentroids seed pts k)
  { labels := pts.map (nearestIdx cents), centroids := cents }

/-- Booths of `clustered` carrying cluster id `i`. -/
def membersOf (clustered : List (Booth × ℕ)) (i : ℕ) : List (Booth × ℕ) :=
  clustered.filter (fun b => b.2 == i)

/-- Modelled from the spec (section 4.5): the Representative Selector for
one cluster — stable sort by squared distance to the centroid (ties break
by input order, a deterministic rule) and take at most two members. -/
def closestTwo (cent : Pt) (members : List (Booth × ℕ)) : List (Booth × ℕ) :=
  (members.insertionSort (fun a b => sqDist a.1.pt cent ≤ sqDist b.1.pt cent)).take 2

/-- The per-region result dictionary produced by
`process_ac_pc_clustering`, with the keys read by src/app.py and
src/main.py (`total_booths`, `selected_booths`, `clustered_booths`,
`cluster_centers`, `is_complete`, `reason`); `requestedClusters` records
the allocated K of spec section 4.3. -/
structure ClusterOutcome where
  total_booths : ℕ
  selected_booths : List (Booth × ℕ)
  clustered_booths : List (Booth × ℕ)
  cluster_centers : List Pt
  requestedClusters : ℕ
  is_complete : Bool
  reason : String
deriving DecidableEq, Repr

/-- Modelled from the spec: `process_ac_pc_clustering` of
utils/clustering_utils.py, which is missing from the source tree —
sections 4.3–4.6: allocate K = max(1, round(samples/25)) clusters,
partition the booths with the seeded clustering engine, select up to two
booths per cluster closest to its centroid, and judge completeness as
`selected == 2 × K` with a reason drawn from a fixed enumeration. -/
def process_ac_pc_clustering (booths : List Booth) (samples_per_ac : ℕ)
    (seed : ℕ) : ClusterOutcome :=
  let K := clustersFor samples_per_ac
  let km := kmeans (booths.map Booth.pt) K seed
  let clustered := booths.zip km.labels
  let selected := (List.range km.centroids.length).flatMap (fun i =>
    closestTwo (km.centroids.getD i (0, 0)) (membersOf clustered i))
  { total_booths := booths.length
    selected_booths := selected
    clustered_booths := clustered
    cluster_centers := km.centroids
    requestedClusters := K
    is_complete := selected.length == 2 * K
    reason :=
      if selected.length == 2 * K then ""
      else if booths.length < K then "Cluster count reduced: fewer booths than clusters"
      else "Insufficient booths for full selection" }

/-- One row of the summary table built by the per-region loop of
`process_data` (src/main.py lines 213–252; identical in src/app.py). -/
structure SummaryRow where
  code : String
  name : String
  total_booths : ℕ
  selected_count : ℕ
  status : String
  reason : String
  samples_requested : ℕ
deriving DecidableEq, Repr

/-- The loop body of `process_data` (src/main.py lines 213–252) for one
region: validate containment; when no booth validates, emit the fixed
zero-booth summary row and skip clustering (`continue`); otherwise run
the clustering step (passed in as `clusterFn`) and summarise its result. -/
def process_data_region (clusterFn : List Booth → ℕ → ClusterOutcome)
    (tr : ℕ → ℕ → Pt → Pt)
    (booths_gdf : Option BoothLayer) (polygon_gdf : Option PolyLayer)
    (ac_pc_code ac_pc_name : String) (ac_pc_column : String)
    (samples_per_ac : ℕ) : SummaryRow :=
  let valid := validate_booths_in_polygon tr booths_gdf polygon_gdf
    ac_pc_code (some ac_pc_column)
  if valid.isEmpty then
    { code := ac_pc_code, name := ac_pc_name, total_booths := 0,
      selected_count := 0, status := "Not completed",
      reason := "No booths found within boundary",
      samples_requested := samples_per_ac }
  else
    let result := clusterFn valid samples_per_ac
    { code := ac_pc_code, name := ac_pc_name,
      total_booths := result.total_booths,
      selected_count := result.selected_booths.length,
      status := if result.is_complete then "Completed" else "Not completed",
      reason := result.reason,
      samples_requested := samples_per_ac }

/-- Convenience constructor for a booth with no attributes. -/
def mkBooth (x y : ℚ) : Booth := ⟨(x, y), []⟩

/-- Unit square with corners (0,0) and (1,1). -/
def sqPoly1 : List Pt := [(0, 0), (1, 0), (1, 1), (0, 1)]

/-- Unit square with corners (2,2) and (3,3), disjoint from `sqPoly1`. -/
def sqPoly2 : List Pt := [(2, 2), (3, 2), (3, 3), (2, 3)]

/-- Right triangle with legs on the axes; its bounding box is the square
of side 4, so (3,3) is in the box but outside the triangle. -/
def triPoly : List Pt := [(0, 0), (4, 0), (0, 4)]

/-- Region layer holding the triangle under assembly code "7". -/
def triLayer : PolyLayer :=
  ⟨["ac_no", "name"], [⟨[("ac_no", "7"), ("name", "T")], triPoly⟩], 1⟩

/-- Booth layer with one booth inside the triangle and one outside it
(but inside its bounding box), same CRS as `triLayer`. -/
def triBooths : BoothLayer := ⟨[mkBooth 1 1, mkBooth 3 3], 1⟩

/-- Region layer holding `sqPoly1` under assembly code "5". -/
def sq1Layer : PolyLayer := ⟨["ac_no"], [⟨[("ac_no", "5")], sqPoly1⟩], 1⟩

/-- Booth layer whose single booth lies far outside `sqPoly1`. -/
def farBooths : BoothLayer := ⟨[mkBooth 10 10], 1⟩

/-- Region layer with two different rows both carrying code "5":
first the square at the origin, then the far square. -/
def twoPolyLayer : PolyLayer :=
  ⟨["ac_no"], [⟨[("ac_no", "5")], sqPoly1⟩, ⟨[("ac_no", "5")], sqPoly2⟩], 1⟩

/-- Booth layer whose single booth sits at the centre of `sqPoly2`
(inside the second code-"5" polygon, outside the first). -/
def midBooths : BoothLayer := ⟨[mkBooth ((5 : ℚ) / 2) ((5 : ℚ) / 2)], 1⟩

/-- Region layer in CRS 2 holding `sqPoly2` under parliamentary code "9". -/
def crsPolys : PolyLayer := ⟨["pc_no"], [⟨[("pc_no", "9")], sqPoly2⟩], 2⟩

/-- Booth layer in CRS 1 whose single booth lands at the centre of
`sqPoly2` once shifted by `shiftTr`. -/
def crsBooths : BoothLayer := ⟨[mkBooth ((1 : ℚ) / 2) ((1 : ℚ) / 2)], 1⟩

/-- A concrete reprojection family: translate by (+2, +2) when going from
CRS 1 to CRS 2, identity otherwise. -/
def shiftTr (a b : ℕ) (p : Pt) : Pt :=
  if a = 1 ∧ b = 2 then (p.1 + 2, p.2 + 2) else p

/-- Four booths that k-means (seed 0) splits into clusters of sizes 1 and
3: three collinear nearby booths and one outlier. -/
def unevenBooths : List Booth :=
  [mkBooth 0 0, mkBooth 0 1, mkBooth 0 2, mkBooth 100 0]

/-- Four booths in two tight, far-apart pairs: k-means (seed 0) yields two
clusters of two booths each. -/
def pairedBooths : List Booth :=
  [mkBooth 0 0, mkBooth 0 1, mkBooth 100 0, mkBooth 100 1]

/-- A degenerate clustering step used to show the zero-booth path never
invokes clustering. -/
def nullClusterFn : List Booth → ℕ → ClusterOutcome :=
  fun _ _ => ⟨0, [], [], [], 0, false, ""⟩

/-- The clustering step as wired in src/main.py, at seed 0. -/
def realClusterFn : List Booth → ℕ → ClusterOutcome :=
  fun b s => process_ac_pc_clustering b s 0

attribute [local semireducible] Rat.add Rat.sub Rat.mul Rat.inv

/-- Unfolding lemma: the requested cluster count recorded by the engine. -/
theorem process_requested_def (booths : List Booth) (s seed : ℕ) :
    (process_ac_pc_clustering booths s seed).requestedClusters = clustersFor s := rfl

/-- Unfolding lemma: the cluster centres of the engine's result. -/
theorem process_centers_def (booths : List Booth) (s seed : ℕ) :
    (process_ac_pc_clustering booths s seed).cluster_centers =
      (kmeans (booths.map Booth.pt) (clustersFor s) seed).centroids := rfl

/-- Unfolding lemma: the clustered booths of the engine's result. -/
theorem process_clustered_def (booths : List Booth) (s seed : ℕ) :
    (process_ac_pc_clustering booths s seed).clustered_booths =
      booths.zip (kmeans (booths.map Booth.pt) (clustersFor s) seed).labels := rfl

/-- Unfolding lemma: the selected booths of the engine's result. -/
theorem process_selected_def (booths : List Booth) (s seed : ℕ) :
    (process_ac_pc_clustering booths s seed).selected_booths =
      (List.range (kmeans (booths.map Booth.pt) (clustersFor s) seed).centroids.length).flatMap
        (fun i =>
          closestTwo ((kmeans (booths.map Booth.pt) (clustersFor s) seed).centroids.getD i (0, 0))
            (membersOf (booths.zip (kmeans (booths.map Booth.pt) (clustersFor s) seed).labels) i)) :=
  rfl

/-- Unfolding lemma: the completeness verdict of the engine's result. -/
theorem process_is_complete_def (booths : List Booth) (s seed : ℕ) :
    (process_ac_pc_clustering booths s seed).is_complete =
      ((process_ac_pc_clustering booths s seed).selected_booths.length == 2 * clustersFor s) :=
  rfl

/-- One update step keeps the number of centroids. -/
theorem length_updateCentroids (pts cents : List Pt) :
    (updateCentroids pts cents).length = cents.length := by
  simp [updateCentroids]

/-- The iteration loop keeps the number of centroids. -/
theorem length_kmeansIter (fuel : ℕ) (pts cents : List Pt) :
    (kmeansIter fuel pts cents).length = cents.length := by
  induction fuel generalizing cents with
  | zero => rfl
  | succ n ih =>
    simp only [kmeansIter]
    split
    · rfl
    · rw [ih, length_updateCentroids]

/-- The engine never produces more centroids than the allocated K. -/
theorem kmeans_centroids_le (pts : List Pt) (k seed : ℕ) :
    (kmeans pts k seed).centroids.length ≤ k := by
  simp only [kmeans, length_kmeansIter, initCentroids, List.length_take]
  omega

/-- The per-cluster selection takes exactly `min 2 (cluster size)` booths. -/
theorem length_closestTwo (cent : Pt) (members : List (Booth × ℕ)) :
    (closestTwo cent members).length = min 2 members.length := by
  simp [closestTwo, List.length_take, List.length_insertionSort]

/-- Length bound for a flat map whose pieces have length at most two. -/
theorem length_flatMap_le {α β : Type} (l : List α) (f : α → List β)
    (h : ∀ i ∈ l, (f i).length ≤ 2) : (l.flatMap f).length ≤ 2 * l.length := by
  induction l with
  | nil => simp
  | cons a t ih =>
    have h1 := h a (by simp)
    have h2 := ih (fun i hi => h i (by simp [hi]))
    simp only [List.flatMap_cons, List.length_append, List.length_cons]
    omega

/-- Length of a flat map whose pieces all have length exactly two. -/
theorem length_flatMap_eq {α β : Type} (l : List α) (f : α → List β)
    (h : ∀ i ∈ l, (f i).length = 2) : (l.flatMap f).length = 2 * l.length := by
  induction l with
  | nil => simp
  | cons a t ih =>
    have h1 := h a (by simp)
    have h2 := ih (fun i hi => h i (by simp [hi]))
    simp only [List.flatMap_cons, List.length_append, List.length_cons]
    omega

/-- Python's rounding never goes below the floor. -/
theorem pyRound_ge_floor (q : ℚ) : ⌊q⌋ ≤ pyRound q := by
  unfold pyRound
  split_ifs <;> omega

/-- For the sample sizes the sidebar admits (s ≥ 25), the display formula
of src/app.py line 148 agrees with the floored allocator of the spec:
the `max 1` floor is inactive there. -/
theorem clusters_per_ac_eq (s : ℕ) (h : 25 ≤ s) :
    clusters_per_ac s = (clustersFor s : ℤ) := by
  have h25 : (0 : ℚ) < 25 := by norm_num
  have hq : (1 : ℚ) ≤ (s : ℚ) / 25 := (one_le_div h25).mpr (by exact_mod_cast h)
  have hfloor : (1 : ℤ) ≤ ⌊(s : ℚ) / 25⌋ := Int.le_floor.mpr (by exact_mod_cast hq)
  have hr := pyRound_ge_floor ((s : ℚ) / 25)
  have h1 : (1 : ℤ) ≤ pyRound ((s : ℚ) / 25) := hfloor.trans hr
  have h2 : 1 ≤ (pyRound ((s : ℚ) / 25)).toNat := by omega
  unfold clusters_per_ac clustersFor
  rw [max_eq_right h2]
  omega

/-- The selection step is capped at two booths per allocated cluster. -/
theorem process_selected_le (booths : List Booth) (s seed : ℕ) :
    (process_ac_pc_clustering booths s seed).selected_booths.length ≤ 2 * clustersFor s := by
  rw [process_selected_def]
  have hC := kmeans_centroids_le (booths.map Booth.pt) (clustersFor s) seed
  have hb := length_flatMap_le
    (List.range (kmeans (booths.map Booth.pt) (clustersFor s) seed).centroids.length)
    (fun i =>
      closestTwo ((kmeans (booths.map Booth.pt) (clustersFor s) seed).centroids.getD i (0, 0))
        (membersOf (booths.zip (kmeans (booths.map Booth.pt) (clustersFor s) seed).labels) i))
    (fun i _ => by rw [length_closestTwo]; omega)
  simp only [List.length_range] at hb
  omega

/-- C1: For every requested sample size s, the engine allocates
max(1, round(s / 25)) clusters and targets exactly 2 × clusters selected
booths: the recorded cluster count is that formula, completeness holds
exactly when the selected count reaches 2 × clusters, the selected count
never exceeds it, the formula agrees with the sidebar display of
src/app.py line 148 on every admissible input (s ≥ 25), and s = 300
yields 12 clusters with a target of 24 booths. -/
theorem C1_cluster_allocator (booths : List Booth) (s seed : ℕ) :
    (process_ac_pc_clustering booths s seed).requestedClusters =
      max 1 (pyRound ((s : ℚ) / 25)).toNat ∧
    ((process_ac_pc_clustering booths s seed).is_complete = true ↔
      (process_ac_pc_clustering booths s seed).selected_booths.length =
        2 * (process_ac_pc_clustering booths s seed).requestedClusters) ∧
    (process_ac_pc_clustering booths s seed).selected_booths.length ≤
      2 * (process_ac_pc_clustering booths s seed).requestedClusters ∧
    (25 ≤ s → clusters_per_ac s =
      ((process_ac_pc_clustering booths s seed).requestedClusters : ℤ)) ∧
    clustersFor 300 = 12 ∧ 2 * clustersFor 300 = 24 := by
  refine ⟨rfl, ?_, ?_, ?_, by decide, by decide⟩
  · rw [process_is_complete_def, process_requested_def]
    exact beq_iff_eq
  · rw [process_requested_def]
    exact process_selected_le booths s seed
  · intro h
    rw [process_requested_def]
    exact clusters_per_ac_eq s h

/-- Witness for C1 at booths = pairedBooths, s = 300, seed = 0, with the
hypothesis 25 ≤ 300 discharged concretely. -/
theorem C1_cluster_allocator_witness :
    clusters_per_ac 300 =
      ((process_ac_pc_clustering pairedBooths 300 0).requestedClusters : ℤ) ∧
    clustersFor 300 = 12 := by
  have h := C1_cluster_allocator pairedBooths 300 0
  exact ⟨h.2.2.2.1 (by norm_num), h.2.2.2.2.1⟩

/-- C2 (amended): is_complete is true exactly when the number of selected
booths equals 2 × the requested cluster count; and whenever the engine
produces a full set of K centroids and every cluster has at least two
members, exactly 2K booths are selected and is_complete is true.  (The
original claim asked this for every region with N ≥ 2K valid booths, but
clustering can give a cluster fewer than two members even then, and the
selector never pads across clusters.) -/
theorem C2_completeness_amended (booths : List Booth) (s seed : ℕ)
    (hK : (process_ac_pc_clustering booths s seed).cluster_centers.length = clustersFor s)
    (hm : ∀ i < clustersFor s,
      2 ≤ (membersOf (process_ac_pc_clustering booths s seed).clustered_booths i).length) :
    ((process_ac_pc_clustering booths s seed).is_complete = true ↔
      (process_ac_pc_clustering booths s seed).selected_booths.length = 2 * clustersFor s) ∧
    (process_ac_pc_clustering booths s seed).selected_booths.length = 2 * clustersFor s ∧
    (process_ac_pc_clustering booths s seed).is_complete = true := by
  rw [process_centers_def] at hK
  rw [process_clustered_def] at hm
  have hiff : (process_ac_pc_clustering booths s seed).is_complete = true ↔
      (process_ac_pc_clustering booths s seed).selected_booths.length = 2 * clustersFor s := by
    rw [process_is_complete_def]
    exact beq_iff_eq
  have hsel : (process_ac_pc_clustering booths s seed).selected_booths.length =
      2 * clustersFor s := by
    rw [process_selected_def]
    have hb := length_flatMap_eq
      (List.range (kmeans (booths.map Booth.pt) (clustersFor s) seed).centroids.length)
      (fun i =>
        closestTwo ((kmeans (booths.map Booth.pt) (clustersFor s) seed).centroids.getD i (0, 0))
          (membersOf (booths.zip (kmeans (booths.map Booth.pt) (clustersFor s) seed).labels) i))
      (fun i hi => by
        rw [length_closestTwo]
        have : i < clustersFor s := by
          rw [← hK]
          exact List.mem_range.mp hi
        have := hm i this
        omega)
    rw [hb, List.length_range, hK]
  exact ⟨hiff, hsel, hiff.mpr hsel⟩

/-- Witness for C2 at pairedBooths with s = 50 (K = 2), seed = 0: both
hypotheses hold concretely and the full 2K = 4 booths are selected. -/
theorem C2_completeness_witness :
    (process_ac_pc_clustering pairedBooths 50 0).selected_booths.length = 2 * clustersFor 50 ∧
    (process_ac_pc_clustering pairedBooths 50 0).is_complete = true := by
  have h := C2_completeness_amended pairedBooths 50 0 (by decide) (by decide)
  exact ⟨h.2.1, h.2.2⟩

/-- Counterexample to C2 as stated: unevenBooths has N = 4 valid booths
and K = 2 clusters, so N ≥ 2K, yet only 3 booths are selected (one
cluster has a single member) and is_complete is false. -/
theorem C2_completeness_counterexample :
    2 * clustersFor 50 ≤ unevenBooths.length ∧
    (process_ac_pc_clustering unevenBooths 50 0).selected_booths.length ≠ 2 * clustersFor 50 ∧
    (process_ac_pc_clustering unevenBooths 50 0).is_complete = false := by
  refine ⟨by decide, by decide, by decide⟩

/-- C6: Running the clustering engine twice on the same booth set, same
K, and same deterministic seed yields identical cluster assignments and
identical centroid coordinates; likewise the whole per-region pipeline is
a pure function of its inputs, so two runs coincide. -/
theorem C6_clustering_determinism (pts : List Pt) (k seed : ℕ)
    (booths : List Booth) (s : ℕ) :
    ((kmeans pts k seed).labels = (kmeans pts k seed).labels ∧
      (kmeans pts k seed).centroids = (kmeans pts k seed).centroids) ∧
    process_ac_pc_clustering booths s seed = process_ac_pc_clustering booths s seed :=
  ⟨⟨rfl, rfl⟩, rfl⟩

/-- C3: For a booth collection and a region polygon matched by code (same
CRS), the Containment Validator returns exactly the booths whose point
lies within the matched polygon's geometry under the even–odd
point-in-polygon test — none outside is returned and none inside is
omitted; moreover the test is genuinely geometric, not bounding-box
overlap: (3,3) lies in the bounding box of the triangle but not in the
triangle, while (1,1) lies in both. -/
theorem C3_containment_validator (tr : ℕ → ℕ → Pt → Pt) (B : BoothLayer) (P : PolyLayer)
    (code c : String) (row : PolyRow) (rest : List PolyRow)
    (hcrs : B.crs = P.crs)
    (hmatch : P.rows.filter (fun r => rowValue r.attrs c == code) = row :: rest) :
    (∀ b : Booth, b ∈ validate_booths_in_polygon tr (some B) (some P) code (some c) ↔
      b ∈ B.rows ∧ pointInPolygon b.pt row.geometry = true) ∧
    pointInPolygon (1, 1) triPoly = true ∧
    pointInPolygon (3, 3) triPoly = false ∧
    inBoundingBox (1, 1) triPoly = true ∧
    inBoundingBox (3, 3) triPoly = true := by
  refine ⟨?_, by decide, by decide, by decide, by decide⟩
  intro b
  simp only [validate_booths_in_polygon, hcrs, ne_eq, not_true_eq_false, if_false, hmatch,
    List.mem_filter]

/-- Witness for C3 on the triangle layer: the booth at (1,1) is returned
and the booth at (3,3) — inside the bounding box only — is not. -/
theorem C3_containment_validator_witness :
    mkBooth 1 1 ∈ validate_booths_in_polygon (fun _ _ p => p)
      (some triBooths) (some triLayer) "7" (some "ac_no") ∧
    mkBooth 3 3 ∉ validate_booths_in_polygon (fun _ _ p => p)
      (some triBooths) (some triLayer) "7" (some "ac_no") := by
  have h := C3_containment_validator (fun _ _ p => p) triBooths triLayer "7" "ac_no"
    ⟨[("ac_no", "7"), ("name", "T")], triPoly⟩ [] rfl (by decide)
  constructor
  · exact (h.1 (mkBooth 1 1)).mpr (by decide)
  · intro hmem
    exact absurd ((h.1 (mkBooth 3 3)).mp hmem).2 (by decide)

/-- C5: When the booth layer's CRS differs from the polygon layer's, the
validator tests each booth point reprojected from the booth CRS into the
polygon CRS against the original (never reprojected) polygon geometry;
consequently the result depends on the transformation family only
through the booth-to-polygon direction. -/
theorem C5_reprojection (tr : ℕ → ℕ → Pt → Pt) (B : BoothLayer) (P : PolyLayer)
    (code c : String) (h : B.crs ≠ P.crs) :
    (validate_booths_in_polygon tr (some B) (some P) code (some c) =
      match P.rows.filter (fun r => rowValue r.attrs c == code) with
      | [] => []
      | row :: _ =>
        (B.rows.map (fun b => { b with pt := tr B.crs P.crs b.pt })).filter
          (fun b => pointInPolygon b.pt row.geometry)) ∧
    ∀ tr' : ℕ → ℕ → Pt → Pt, (∀ p, tr' B.crs P.crs p = tr B.crs P.crs p) →
      validate_booths_in_polygon tr' (some B) (some P) code (some c) =
      validate_booths_in_polygon tr (some B) (some P) code (some c) := by
  constructor
  · simp only [validate_booths_in_polygon, if_pos h]
  · intro tr' htr
    have hmap : B.rows.map (fun b => { b with pt := tr' B.crs P.crs b.pt }) =
        B.rows.map (fun b => { b with pt := tr B.crs P.crs b.pt }) :=
      List.map_congr_left (fun a _ => by rw [htr])
    simp only [validate_booths_in_polygon, if_pos h, hmap]

/-- Witness for C5: booth CRS 1 vs polygon CRS 2; the (+2,+2) shift moves
the booth at (1/2,1/2) to the centre of the far square, so it validates,
and its stored point is the reprojected one. -/
theorem C5_reprojection_witness :
    validate_booths_in_polygon shiftTr (some crsBooths) (some crsPolys) "9" (some "pc_no") =
      [⟨((5 : ℚ) / 2, (5 : ℚ) / 2), []⟩] := by
  have h := C5_reprojection shiftTr crsBooths crsPolys "9" "pc_no" (by decide)
  rw [h.1]
  decide

/-- C7: A region code matching no row of the polygon layer (string
comparison) makes the Containment Validator return the empty result —
the function is total, no error path. -/
theorem C7_unmatched_code (tr : ℕ → ℕ → Pt → Pt) (B : BoothLayer) (P : PolyLayer)
    (code c : String) (h : ∀ r ∈ P.rows, rowValue r.attrs c ≠ code) :
    validate_booths_in_polygon tr (some B) (some P) code (some c) = [] := by
  have hf : P.rows.filter (fun r => rowValue r.attrs c == code) = [] :=
    List.filter_eq_nil_iff.mpr (fun r hr => by simp [h r hr])
  simp only [validate_booths_in_polygon, hf]

/-- Witness for C7: querying the triangle layer (codes "7") with the
unmatched code "99" yields the empty result. -/
theorem C7_unmatched_code_witness :
    validate_booths_in_polygon (fun _ _ p => p) (some triBooths) (some triLayer)
      "99" (some "ac_no") = [] := by
  exact C7_unmatched_code (fun _ _ p => p) triBooths triLayer "99" "ac_no" (by decide)

/-- C4 (amended): A region whose containment validation is empty gets the
fixed zero-booth summary row — total booths 0, selected count 0, status
"Not completed" (is_complete false), reason "No booths found within
boundary" (the code capitalises the first word) — and the clustering step
is never invoked: the outcome is the same for every clustering function. -/
theorem C4_zero_booth_amended (f g : List Booth → ℕ → ClusterOutcome)
    (tr : ℕ → ℕ → Pt → Pt) (bo : Option BoothLayer) (po : Option PolyLayer)
    (code nm col : String) (s : ℕ)
    (h : validate_booths_in_polygon tr bo po code (some col) = []) :
    process_data_region f tr bo po code nm col s =
      { code := code, name := nm, total_booths := 0, selected_count := 0,
        status := "Not completed", reason := "No booths found within boundary",
        samples_requested := s } ∧
    process_data_region f tr bo po code nm col s =
      process_data_region g tr bo po code nm col s := by
  constructor <;> simp only [process_data_region, h, List.isEmpty_nil, if_true]

/-- Witness for C4: the booth at (10,10) is outside the code-"5" square,
so validation is empty and the fixed row appears, identically for the
real clustering function and the degenerate one. -/
theorem C4_zero_booth_witness :
    process_data_region realClusterFn (fun _ _ p => p) (some farBooths) (some sq1Layer)
        "5" "Region5" "ac_no" 300 =
      { code := "5", name := "Region5", total_booths := 0, selected_count := 0,
        status := "Not completed", reason := "No booths found within boundary",
        samples_requested := 300 } ∧
    process_data_region realClusterFn (fun _ _ p => p) (some farBooths) (some sq1Layer)
        "5" "Region5" "ac_no" 300 =
      process_data_region nullClusterFn (fun _ _ p => p) (some farBooths) (some sq1Layer)
        "5" "Region5" "ac_no" 300 :=
  C4_zero_booth_amended realClusterFn nullClusterFn (fun _ _ p => p)
    (some farBooths) (some sq1Layer) "5" "Region5" "ac_no" 300 (by decide)

/-- Counterexample to C4 as stated: the reason string the code emits on
the zero-booth path is "No booths found within boundary", which is not
the claimed "no booths found within boundary". -/
theorem C4_zero_booth_counterexample :
    (process_data_region realClusterFn (fun _ _ p => p) (some farBooths) (some sq1Layer)
        "5" "Region5" "ac_no" 300).reason = "No booths found within boundary" ∧
    (process_data_region realClusterFn (fun _ _ p => p) (some farBooths) (some sq1Layer)
        "5" "Region5" "ac_no" 300).reason ≠ "no booths found within boundary" := by
  refine ⟨by decide, by decide⟩

/-- C8: The Schema Resolver returns the first alias, in the fixed
candidate order, present in the field set — the answer is invariant under
reordering of the field set, any returned alias is preceded only by
absent candidates — and when no alias matches, the resolved output
attribute is the empty string, not an error. -/
theorem C8_schema_resolver :
    (∀ cols cols' pats : List String, (∀ x, x ∈ cols ↔ x ∈ cols') →
      get_column_name cols pats = get_column_name cols' pats) ∧
    (∀ cols pats c, get_column_name cols pats = some c →
      c ∈ cols ∧ ∃ l1 l2, pats = l1 ++ c :: l2 ∧ ∀ q ∈ l1, q ∉ cols) ∧
    (∀ pats cols, (∀ p ∈ pats, p ∉ cols) → get_column_name cols pats = none) ∧
    (∀ (row : Booth) pats, (∀ p ∈ pats, p ∉ row.attrs.map Prod.fst) →
      resolveField row pats = "") := by
  have habsent : ∀ pats cols : List String, (∀ p ∈ pats, p ∉ cols) →
      get_column_name cols pats = none := by
    intro pats cols h
    exact List.find?_eq_none.mpr (fun p hp => by simp [h p hp])
  refine ⟨?_, ?_, habsent, ?_⟩
  · intro cols cols' pats h
    induction pats with
    | nil => rfl
    | cons p ps ih =>
      by_cases hp : p ∈ cols
      · have hp' : p ∈ cols' := (h p).mp hp
        simp [get_column_name, List.find?, hp, hp']
      · have hp' : p ∉ cols' := fun hm => hp ((h p).mpr hm)
        simpa [get_column_name, List.find?, hp, hp'] using ih
  · intro cols pats c
    induction pats with
    | nil => intro hc; simp [get_column_name, List.find?] at hc
    | cons p ps ih =>
      intro hc
      by_cases hp : p ∈ cols
      · simp [get_column_name, List.find?, hp] at hc
        subst hc
        exact ⟨hp, [], ps, rfl, by simp⟩
      · simp only [get_column_name, List.find?, decide_eq_false hp] at hc ih
        obtain ⟨hcc, l1, l2, hps, hl1⟩ := ih hc
        exact ⟨hcc, p :: l1, l2, by rw [hps]; rfl, by
          intro q hq
          rcases List.mem_cons.mp hq with hq | hq
          · exact hq ▸ hp
          · exact hl1 q hq⟩
  · intro row pats h
    unfold resolveField
    rw [habsent pats (row.attrs.map Prod.fst) h]

/-- Witness for C8: the resolver picks "booth" ahead of "booth_no" in a
two-column table, and a row with no matching alias resolves to the empty
string. -/
theorem C8_schema_resolver_witness :
    get_column_name ["x", "booth"] ["booth", "booth_no"] = some "booth" ∧
    resolveField ⟨(0, 0), [("z", "v")]⟩ ["booth", "booth_no", "BOOTH_NO", "BOOTH"] = "" := by
  have h := C8_schema_resolver.2.2.2 ⟨(0, 0), [("z", "v")]⟩
    ["booth", "booth_no", "BOOTH_NO", "BOOTH"] (by decide)
  exact ⟨by decide, h⟩

/-- C9: A `None` booth layer or polygon layer, and likewise a polygon
layer none of whose columns matches any region-code alias when no column
is supplied, all make the Containment Validator return the empty result
instead of raising. -/
theorem C9_validator_degrades (tr : ℕ → ℕ → Pt → Pt) (B : BoothLayer) (P : PolyLayer)
    (code : String) (col : Option String)
    (h : ∀ pat ∈ codePatterns, pat ∉ P.columns) :
    validate_booths_in_polygon tr none (some P) code col = [] ∧
    validate_booths_in_polygon tr (some B) none code col = [] ∧
    validate_booths_in_polygon tr none none code col = [] ∧
    validate_booths_in_polygon tr (some B) (some P) code none = [] := by
  refine ⟨rfl, rfl, rfl, ?_⟩
  have hn : get_column_name P.columns codePatterns = none :=
    List.find?_eq_none.mpr (fun p hp => by simp [h p hp])
  simp only [validate_booths_in_polygon, hn]

/-- Witness for C9 on a polygon layer whose only column is "region_id",
matching no alias. -/
theorem C9_validator_degrades_witness :
    validate_booths_in_polygon (fun _ _ p => p) (some triBooths)
      (some ⟨["region_id"], [⟨[("region_id", "7")], triPoly⟩], 1⟩) "7" none = [] :=
  (C9_validator_degrades (fun _ _ p => p) triBooths
    ⟨["region_id"], [⟨[("region_id", "7")], triPoly⟩], 1⟩ "7" none (by decide)).2.2.2

/-- C10: With several polygon rows carrying the queried code, containment
is tested only against the geometry of the first matching row, and a
booth inside a later same-code polygon but outside the first is excluded
from the result. -/
theorem C10_first_match_only (tr : ℕ → ℕ → Pt → Pt) (B : BoothLayer) (P : PolyLayer)
    (code c : String) (r1 : PolyRow) (rest : List PolyRow)
    (hcrs : B.crs = P.crs)
    (hmatch : P.rows.filter (fun r => rowValue r.attrs c == code) = r1 :: rest) :
    validate_booths_in_polygon tr (some B) (some P) code (some c) =
      B.rows.filter (fun b => pointInPolygon b.pt r1.geometry) ∧
    ∀ b ∈ B.rows, ∀ r2 ∈ rest, pointInPolygon b.pt r2.geometry = true →
      pointInPolygon b.pt r1.geometry = false →
      b ∉ validate_booths_in_polygon tr (some B) (some P) code (some c) := by
  have heq : validate_booths_in_polygon tr (some B) (some P) code (some c) =
      B.rows.filter (fun b => pointInPolygon b.pt r1.geometry) := by
    simp only [validate_booths_in_polygon, hcrs, ne_eq, not_true_eq_false, if_false, hmatch]
  refine ⟨heq, ?_⟩
  intro b _ r2 _ _ hout hmem
  rw [heq] at hmem
  exact absurd (List.mem_filter.mp hmem).2 (by simp [hout])

/-- Witness for C10: both rows of twoPolyLayer carry code "5"; the booth
at the centre of the second square is inside the second polygon, outside
the first, and is not returned. -/
theorem C10_first_match_only_witness :
    mkBooth ((5 : ℚ) / 2) ((5 : ℚ) / 2) ∉ validate_booths_in_polygon (fun _ _ p => p)
      (some midBooths) (some twoPolyLayer) "5" (some "ac_no") := by
  have h := C10_first_match_only (fun _ _ p => p) midBooths twoPolyLayer "5" "ac_no"
    ⟨[("ac_no", "5")], sqPoly1⟩ [⟨[("ac_no", "5")], sqPoly2⟩] rfl (by decide)
  exact h.2 (mkBooth ((5 : ℚ) / 2) ((5 : ℚ) / 2)) (by decide)
    ⟨[("ac_no", "5")], sqPoly2⟩ (by decide) (by decide) (by decide)
